/-
Verification of the build orchestration script (src/build/build.py) against
its natural-language specification.  The Python functions are shallowly
embedded as Lean definitions: effectful steps (download, file writes,
process exit) are modelled by explicit outcome records, and the SHA-256
routine from the standard library is an explicit function parameter, since
the script's control flow only compares its hex output with the pinned
digest table.
-/
import Mathlib

set_option maxRecDepth 4096

/-! ### Bazel candidate table (build.py lines 108-142) -/

structure BazelPackage where
  base_uri : Option String
  file : String
  sha256 : String
deriving DecidableEq

def BAZEL_BASE_URI : String :=
  "https://github.com/bazelbuild/bazel/releases/download/6.1.2/"

def bazel_packages : List ((String × String) × BazelPackage) :=
  [ (("Linux", "x86_64"),
      { base_uri := none, file := "bazel-6.1.2-linux-x86_64",
        sha256 := "e89747d63443e225b140d7d37ded952dacea73aaed896bca01ccd745827c6289" }),
    (("Linux", "aarch64"),
      { base_uri := none, file := "bazel-6.1.2-linux-arm64",
        sha256 := "1c9b249e315601c3703c41668a1204a8fdf0eba7f0f2b7fc38253bad1d1969c7" }),
    (("Darwin", "x86_64"),
      { base_uri := none, file := "bazel-6.1.2-darwin-x86_64",
        sha256 := "22d4b605ce6a7aad92d4f387458cc68de9907a2efa08f9b8bda244c2b6010561" }),
    (("Darwin", "arm64"),
      { base_uri := none, file := "bazel-6.1.2-darwin-arm64",
        sha256 := "30cdf85af055ca8fdab7de592b1bd64f940955e3f63ed5c503c4e93d0112bd9d" }),
    (("Windows", "AMD64"),
      { base_uri := none, file := "bazel-6.1.2-windows-x86_64.exe",
        sha256 := "47e7f65a3bfa882910f76e2107b4298b28ace33681bd0279e25a8f91551913c0" }) ]

/-- Models dict.get on the bazel_packages dictionary (build.py line 147). -/
def dict_get : List ((String × String) × BazelPackage) → (String × String) →
    Option BazelPackage
  | [], _ => none
  | (k, v) :: rest, key => if key = k then some v else dict_get rest key

/-! ### download_and_verify_bazel (build.py lines 145-190)

The observable effects of one call: how many downloads were attempted,
whether a digest was computed, which bytes (if any) were persisted under the
canonical binary name, whether that file was chmod-ed executable, whether the
process exited (and with which status), and the returned value (`none` in
the inner option mirrors Python's `return None` for unsupported platforms;
an outer `none` means the process exited before returning). -/

structure DownloadOutcome where
  downloads : Nat
  digest_computed : Bool
  written : Option (List Nat)
  made_executable : Bool
  exit : Option Int
  ret : Option (Option String)
deriving DecidableEq

def download_and_verify_bazel (hash : List Nat → String)
    (system machine : String) (file_executable : Bool)
    (fetched : List Nat) : DownloadOutcome :=
  match dict_get bazel_packages (system, machine) with
  | none =>
      { downloads := 0, digest_computed := false, written := none,
        made_executable := false, exit := none, ret := some none }
  | some package =>
      if file_executable then
        { downloads := 0, digest_computed := false, written := none,
          made_executable := false, exit := none,
          ret := some (some ("./" ++ package.file)) }
      else
        let digest := hash fetched
        if digest ≠ package.sha256 then
          { downloads := 1, digest_computed := true, written := none,
            made_executable := false, exit := some (-1), ret := none }
        else
          { downloads := 1, digest_computed := true, written := some fetched,
            made_executable := true, exit := none,
            ret := some (some ("./" ++ package.file)) }

/-! ### get_bazel_version (build.py lines 221-229)

The version probe runs the candidate with `--version` and applies the
pattern `bazel *([0-9\\.]+)` to the output (note: inside a raw Python
string the class `[0-9\\.]` also matches a literal backslash).  The capture
is split on dots and each component passed to `int`; a component that is
empty or contains a backslash raises an uncaught ValueError. -/

/-- A character matched by the regex character class `[0-9\\.]`. -/
def classChar (c : Char) : Bool :=
  c.isDigit || c = '.' || c = '\\'

/-- Attempt the pattern at the head of the character list: literal
`bazel`, then any number of spaces, then a nonempty run of class
characters (the capture group). -/
def matchAt (cs : List Char) : Option (List Char) :=
  if cs.take 5 = ['b', 'a', 'z', 'e', 'l'] then
    let rest := (cs.drop 5).dropWhile (fun c => c = ' ')
    let cap := rest.takeWhile classChar
    if cap = [] then none else some cap
  else none

/-- re.search: leftmost position where the pattern matches. -/
def regexSearch : List Char → Option (List Char)
  | [] => none
  | c :: cs =>
    match matchAt (c :: cs) with
    | some cap => some cap
    | none => regexSearch cs

/-- Split a character list on a separator character (str.split semantics:
n separators yield n+1 pieces, possibly empty). -/
def splitOnChar (sep : Char) : List Char → List (List Char)
  | [] => [[]]
  | c :: cs =>
    if c = sep then [] :: splitOnChar sep cs
    else
      match splitOnChar sep cs with
      | [] => [[c]]
      | l :: ls => (c :: l) :: ls

def digitsVal (cs : List Char) : Nat :=
  cs.foldl (fun n c => n * 10 + (c.toNat - 48)) 0

/-- Python int() on a capture component: succeeds exactly on a nonempty
all-digit string, raises ValueError otherwise. -/
def pyInt (cs : List Char) : Option Nat :=
  if cs ≠ [] ∧ cs.all Char.isDigit then some (digitsVal cs) else none

def allInts : List (List Char) → Option (List Nat)
  | [] => some []
  | c :: cs =>
    match pyInt c, allInts cs with
    | some n, some ns => some (n :: ns)
    | _, _ => none

/-- Result of running the version-probe subprocess: the probe either raised
(CalledProcessError / OSError, both caught) or produced output. -/
inductive ProbeResult
  | raised
  | output (s : String)

/-- get_bazel_version: `.ok none` models returning None, `.ok (some vs)`
returning the parsed tuple, `.error ()` an uncaught ValueError from int(). -/
def get_bazel_version : ProbeResult → Except Unit (Option (List Nat))
  | ProbeResult.raised => Except.ok none
  | ProbeResult.output s =>
    match regexSearch s.data with
    | none => Except.ok none
    | some cap =>
      match allInts (splitOnChar '.' cap) with
      | some vs => Except.ok (some vs)
      | none => Except.error ()

/-- Whether the version probe completed without an uncaught exception. -/
def noValueError (pr : ProbeResult) : Bool :=
  match get_bazel_version pr with
  | Except.error _ => false
  | Except.ok _ => true

/-- The parsed tuple, when the probe succeeded with a match. -/
def versionOf (pr : ProbeResult) : List Nat :=
  match get_bazel_version pr with
  | Except.ok (some vs) => vs
  | _ => []

/-! ### Python tuple comparison and the version gate
(build.py lines 211-218) -/

/-- Python tuple `<` (lexicographic, a strict prefix is smaller). -/
def pyLt : List Nat → List Nat → Bool
  | [], [] => false
  | [], _ :: _ => true
  | _ :: _, [] => false
  | a :: as, b :: bs => if a < b then true else if b < a then false else pyLt as bs

/-- Python tuple `>=` (total order, so `a >= b` is `not (a < b)`). -/
def pyGe (a b : List Nat) : Bool := !(pyLt a b)

/-- The acceptance test applied to each candidate:
`version is not None and version >= (5, 1, 1)`. -/
def gateAccepts (pr : ProbeResult) : Bool :=
  match get_bazel_version pr with
  | Except.ok (some vs) => pyGe vs [5, 1, 1]
  | _ => false

/-- Python's `".".join(map(str, version))`. -/
def dotJoin : List Nat → String
  | [] => ""
  | [n] => Nat.repr n
  | n :: ns => Nat.repr n ++ "." ++ dotJoin ns

/-! ### get_bazel_paths / get_bazel_path (build.py lines 193-218) -/

/-- The candidate guesses, in order: the --bazel_path flag, bazel found on
PATH, a freshly downloaded binary.  Each may be absent (None). -/
def get_bazel_paths (flag whichBazel downloaded : Option String) :
    List (Option String) :=
  [flag, whichBazel, downloaded]

inductive ResolveOutcome
  | ok (path : String) (version : String)
  | exitFail
  | crash
deriving DecidableEq

/-- The loop body of get_bazel_path over the non-None candidates. -/
def get_bazel_path_go (probe : String → ProbeResult) :
    List String → ResolveOutcome
  | [] => ResolveOutcome.exitFail
  | p :: ps =>
    match get_bazel_version (probe p) with
    | Except.error _ => ResolveOutcome.crash
    | Except.ok none => get_bazel_path_go probe ps
    | Except.ok (some version) =>
      if pyGe version [5, 1, 1] then ResolveOutcome.ok p (dotJoin version)
      else get_bazel_path_go probe ps

def get_bazel_path (flag whichBazel downloaded : Option String)
    (probe : String → ProbeResult) : ResolveOutcome :=
  get_bazel_path_go probe
    ((get_bazel_paths flag whichBazel downloaded).filterMap id)

/-! ### write_bazelrc (build.py lines 259-332)

Each f.write call site is modelled as one chunk, tagged by the section of
the routine that produced it; the file content is the concatenation of the
chunk strings in emission order.  The routine also mutates its
`bazel_options` argument when `use_clang` is set (lines 280-284): the
post-call state of that list is `bazel_options_after`, and the options
loop (lines 304-305) iterates over the mutated list. -/

inductive Tag
  | pythonCfg
  | clangCfg
  | cudaEnv
  | cudaCaps
  | rocmPath
  | rocmTargets
  | cpuFlag
  | optLoop
  | archFeature
  | mklDnn
  | cudaCfg
  | rocmCfg
  | pluginCfg
deriving DecidableEq

structure WBArgs where
  python_bin_path : String := ""
  remote_build : Bool := false
  cuda_version : String := ""
  rocm_toolkit_path : String := ""
  cpu : Option String := none
  cuda_compute_capabilities : String := ""
  rocm_amdgpu_targets : String := ""
  bazel_options : List String := []
  target_cpu_features : String := "default"
  wheel_cpu : String := ""
  enable_mkl_dnn : Bool := false
  use_clang : Bool := false
  clang_path : String := ""
  clang_major_version : Option Int := none
  enable_cuda : Bool := false
  enable_nccl : Bool := true
  enable_rocm : Bool := false
  build_gpu_plugin : Bool := false
  enable_mosaic_gpu : Bool := false

def DEFAULT_CUDA_VERSION : String := "12"

/-- Lines 268-274: Python interpreter configuration, one dedented write. -/
def pySec (a : WBArgs) : List String :=
  if a.remote_build then []
  else if a.python_bin_path = "" then []
  else
    ["build --strategy=Genrule=standalone\nbuild --repo_env PYTHON_BIN_PATH=\""
       ++ a.python_bin_path
       ++ "\"\nbuild --action_env=PYENV_ROOT\nbuild --python_path=\""
       ++ a.python_bin_path ++ "\"\n"]

/-- Lines 276-279: compiler selection writes. -/
def clangSec (a : WBArgs) : List String :=
  if a.use_clang then
    [ "build --action_env CLANG_COMPILER_PATH=\"" ++ a.clang_path ++ "\"\n",
      "build --repo_env CC=\"" ++ a.clang_path ++ "\"\n",
      "build --repo_env BAZEL_COMPILER=\"" ++ a.clang_path ++ "\"\n" ]
  else []

/-- Lines 280-284: the strings appended to the caller's bazel_options list
when use_clang is set (note the embedded newlines, taken verbatim from the
source). -/
def clangExtraOpts (a : WBArgs) : List String :=
  if a.use_clang then
    "--copt=-Wno-error=unused-command-line-argument\n"
      :: (if a.clang_major_version = some 16 ∨ a.clang_major_version = some 17
          then ["--copt=-Wno-gnu-offsetof-extensions\n"] else [])
  else []

/-- The bazel_options list as left behind by write_bazelrc (the Python list
is mutated in place by the appends at lines 280-284). -/
def bazel_options_after (a : WBArgs) : List String :=
  a.bazel_options ++ clangExtraOpts a

/-- Lines 286-291: TF_CUDA_VERSION (explicit version, else default when
CUDA is enabled). -/
def cudaEnvSec (a : WBArgs) : List String :=
  if a.cuda_version = "" then
    if a.enable_cuda then
      ["build --action_env TF_CUDA_VERSION=\"" ++ DEFAULT_CUDA_VERSION ++ "\"\n"]
    else []
  else
    ["build --action_env TF_CUDA_VERSION=\"" ++ a.cuda_version ++ "\"\n"]

/-- Lines 292-294. -/
def cudaCapsSec (a : WBArgs) : List String :=
  if a.cuda_compute_capabilities = "" then []
  else
    ["build:cuda --action_env TF_CUDA_COMPUTE_CAPABILITIES=\""
       ++ a.cuda_compute_capabilities ++ "\"\n"]

/-- Lines 295-297. -/
def rocmPathSec (a : WBArgs) : List String :=
  if a.rocm_toolkit_path = "" then []
  else ["build --action_env ROCM_PATH=\"" ++ a.rocm_toolkit_path ++ "\"\n"]

/-- Lines 298-300. -/
def rocmTargetsSec (a : WBArgs) : List String :=
  if a.rocm_amdgpu_targets = "" then []
  else
    ["build:rocm --action_env TF_ROCM_AMDGPU_TARGETS=\""
       ++ a.rocm_amdgpu_targets ++ "\"\n"]

/-- Lines 301-302 (`if cpu is not None`). -/
def cpuSec (a : WBArgs) : List String :=
  match a.cpu with
  | some c => ["build --cpu=" ++ c ++ "\n"]
  | none => []

/-- Lines 304-305: the options loop, over the (possibly mutated) list. -/
def optSec (a : WBArgs) : List String :=
  (bazel_options_after a).map (fun o => "build " ++ o ++ "\n")

/-- Lines 306-314: target CPU feature directives. -/
def archSec (iswin : Bool) (a : WBArgs) : List String :=
  if a.target_cpu_features = "release" then
    if a.wheel_cpu = "x86_64" then
      [if iswin then "build --config=avx_windows\n"
       else "build --config=avx_posix\n"]
    else []
  else if a.target_cpu_features = "native" then
    if iswin then [] else ["build --config=native_arch_posix\n"]
  else []

/-- Line 312: the warning printed for native mode on Windows. -/
def write_bazelrc_warnings (iswin : Bool) (a : WBArgs) : List String :=
  if a.target_cpu_features = "native" then
    if iswin then
      ["--target_cpu_features=native is not supported on Windows; ignoring."]
    else []
  else []

/-- Lines 316-317. -/
def mklSec (a : WBArgs) : List String :=
  if a.enable_mkl_dnn then ["build --config=mkl_open_source_only\n"] else []

/-- Lines 318-326.  The final mosaic_gpu write (line 326) has no trailing
newline in the source. -/
def cudaCfgSec (a : WBArgs) : List String :=
  if a.enable_cuda then
    ["build --config=cuda\n"]
      ++ (if a.enable_nccl then [] else ["build --config=nonccl\n"])
      ++ (if a.use_clang then
            [ "build --config=nvcc_clang\n",
              "build --action_env=CLANG_CUDA_COMPILER_PATH="
                ++ a.clang_path ++ "\n" ]
          else [])
      ++ (if a.enable_mosaic_gpu then ["build --config=mosaic_gpu"] else [])
  else []

/-- Lines 327-330. -/
def rocmCfgSec (a : WBArgs) : List String :=
  if a.enable_rocm then
    ["build --config=rocm\n"]
      ++ (if a.enable_nccl then [] else ["build --config=nonccl\n"])
  else []

/-- Lines 331-332. -/
def pluginSec (a : WBArgs) : List String :=
  if a.build_gpu_plugin then ["build --config=cuda_plugin\n"] else []

/-- The thirteen write sites of write_bazelrc, in source order, each with
its tag and the list of strings it writes for the given arguments. -/
def sections (iswin : Bool) (a : WBArgs) : List (Tag × List String) :=
  [ (Tag.pythonCfg, pySec a),
    (Tag.clangCfg, clangSec a),
    (Tag.cudaEnv, cudaEnvSec a),
    (Tag.cudaCaps, cudaCapsSec a),
    (Tag.rocmPath, rocmPathSec a),
    (Tag.rocmTargets, rocmTargetsSec a),
    (Tag.cpuFlag, cpuSec a),
    (Tag.optLoop, optSec a),
    (Tag.archFeature, archSec iswin a),
    (Tag.mklDnn, mklSec a),
    (Tag.cudaCfg, cudaCfgSec a),
    (Tag.rocmCfg, rocmCfgSec a),
    (Tag.pluginCfg, pluginSec a) ]

def mkSec (t : Tag) (ss : List String) : List (Tag × String) :=
  ss.map (fun s => (t, s))

def sectionsFlatten : List (Tag × List String) → List (Tag × String)
  | [] => []
  | (t, ss) :: rest => mkSec t ss ++ sectionsFlatten rest

/-- All writes performed by one call of write_bazelrc, in order. -/
def write_bazelrc_chunks (iswin : Bool) (a : WBArgs) : List (Tag × String) :=
  sectionsFlatten (sections iswin a)

/-- The bytes of ../.jax_configure.bazelrc after one call. -/
def write_bazelrc_content (iswin : Bool) (a : WBArgs) : String :=
  String.join ((write_bazelrc_chunks iswin a).map (fun c => c.2))

/-! ### main (build.py lines 380-667): phase ordering

Only the phase-level control flow is modelled: the mutually-exclusive-flags
check (lines 536-537), bazel resolution (line 556), the environment probe
(python version, numpy, required packages, optional clang; lines 560-579),
config emission (line 600) and the build invocations (lines 625-667).
`main_trace` returns the phases that ran, in order, together with the exit
status when the process terminated early (parser.error exits with status 2,
the fail-fast checks call sys.exit(-1)). -/

inductive Event
  | toolResolve
  | envProbe
  | configEmit
  | buildInvoke
deriving DecidableEq, BEq

structure MainArgs where
  enable_cuda : Bool := false
  enable_rocm : Bool := false
  use_clang : Bool := false
  configure_only : Bool := false

structure MainEnv where
  bazel_resolves : Bool := true
  python_version_ok : Bool := true
  numpy_ok : Bool := true
  packages_ok : Bool := true
  clang_ok : Bool := true

def main_trace (args : MainArgs) (env : MainEnv) : List Event × Option Int :=
  if args.enable_cuda && args.enable_rocm then
    ([], some 2)
  else if !env.bazel_resolves then
    ([Event.toolResolve], some (-1))
  else if !(env.python_version_ok && env.numpy_ok && env.packages_ok
              && (!args.use_clang || env.clang_ok)) then
    ([Event.toolResolve, Event.envProbe], some (-1))
  else if args.configure_only then
    ([Event.toolResolve, Event.envProbe, Event.configEmit], none)
  else
    ([Event.toolResolve, Event.envProbe, Event.configEmit, Event.buildInvoke],
      none)

/-! ### Derived notions used by the theorems -/

/-- The lines of the generated file (split on newline characters). -/
def linesOf (s : String) : List String :=
  (splitOnChar '\n' s.data).map (fun l => String.mk l)

/-- Position of each write site in the source order of write_bazelrc. -/
def tagIdx : Tag → Nat
  | Tag.pythonCfg => 0
  | Tag.clangCfg => 1
  | Tag.cudaEnv => 2
  | Tag.cudaCaps => 3
  | Tag.rocmPath => 4
  | Tag.rocmTargets => 5
  | Tag.cpuFlag => 6
  | Tag.optLoop => 7
  | Tag.archFeature => 8
  | Tag.mklDnn => 9
  | Tag.cudaCfg => 10
  | Tag.rocmCfg => 11
  | Tag.pluginCfg => 12

/-- The chunks produced by the target-CPU-feature branch. -/
def archChunks (iswin : Bool) (a : WBArgs) : List (Tag × String) :=
  (write_bazelrc_chunks iswin a).filter (fun c => decide (c.1 = Tag.archFeature))

/-- The chunks written by the options loop come after every chunk written
by any other section (the formal reading of the claim that user-supplied
options are emitted last). -/
def userOptsLast (l : List (Tag × String)) : Prop :=
  l = l.filter (fun c => decide (c.1 ≠ Tag.optLoop))
        ++ l.filter (fun c => decide (c.1 = Tag.optLoop))

/-! ### Concrete inputs used by witnesses and counterexamples -/

/-- A version probe for two installed bazels: an old one and a new one. -/
def probeTwo : String → ProbeResult := fun p =>
  if p = "oldbazel" then ProbeResult.output "bazel 4.9.9"
  else ProbeResult.output "bazel 6.1.2"

/-- One user option plus MKL-DNN enabled. -/
def optsMidArgs : WBArgs :=
  { remote_build := true, bazel_options := ["--foo"], enable_mkl_dnn := true }

/-- CUDA with the Mosaic GPU config and the GPU plugin. -/
def mosaicPluginArgs : WBArgs :=
  { remote_build := true, enable_cuda := true, enable_mosaic_gpu := true,
    build_gpu_plugin := true }

/-- Clang as host compiler, no other options. -/
def clangMutArgs : WBArgs :=
  { remote_build := true, use_clang := true,
    clang_path := "/usr/lib/llvm-17/bin/clang" }

/-- A clang-free configuration. -/
def plainArgs : WBArgs :=
  { python_bin_path := "/usr/bin/python3", bazel_options := ["--foo"],
    enable_mkl_dnn := true, enable_cuda := true }

/-- Release feature set on an x86-64 wheel. -/
def releaseArgs : WBArgs :=
  { remote_build := true, target_cpu_features := "release",
    wheel_cpu := "x86_64" }

/-- Native feature set (to be combined with a Windows host). -/
def nativeArgs : WBArgs :=
  { remote_build := true, target_cpu_features := "native",
    wheel_cpu := "AMD64" }

/-- Both accelerator toggles enabled. -/
def conflictArgs : MainArgs := { enable_cuda := true, enable_rocm := true }

/-- A fully healthy environment. -/
def okEnv : MainEnv := {}

/-- An ordinary successful invocation. -/
def okArgs : MainArgs := {}

instance (l : List (Tag × String)) : Decidable (userOptsLast l) :=
  inferInstanceAs (Decidable (_ = _))

/-! ### Helper lemmas -/

/-- Python tuple strict comparison agrees with the mathematical
lexicographic order on lists. -/
theorem pyLt_iff_lex : ∀ as bs : List Nat,
    pyLt as bs = true ↔ List.Lex (fun a b => a < b) as bs := by
  intro as
  induction as with
  | nil =>
    intro bs
    cases bs with
    | nil => simp [pyLt]
    | cons b bs =>
      simp only [pyLt]
      exact iff_of_true trivial List.Lex.nil
  | cons a as ih =>
    intro bs
    cases bs with
    | nil => simp [pyLt]
    | cons b bs =>
      simp only [pyLt]
      rcases Nat.lt_trichotomy a b with h | h | h
      · rw [if_pos h]
        exact iff_of_true rfl (List.Lex.rel h)
      · subst h
        rw [if_neg (Nat.lt_irrefl a), if_neg (Nat.lt_irrefl a)]
        constructor
        · intro hp
          exact List.Lex.cons ((ih bs).mp hp)
        · intro hl
          cases hl with
          | cons h2 => exact (ih bs).mpr h2
          | rel h2 => exact absurd h2 (Nat.lt_irrefl a)
      · rw [if_neg (Nat.lt_asymm h), if_pos h]
        refine iff_of_false (by simp) ?_
        intro hl
        cases hl with
        | cons h2 => omega
        | rel h2 => omega

/-- When no candidate's probe raises an uncaught exception, the resolver
loop returns the first candidate accepted by the version gate, and the
failure exit when none is. -/
theorem resolver_find (probe : String → ProbeResult) :
    ∀ l : List String, l.all (fun p => noValueError (probe p)) = true →
    get_bazel_path_go probe l =
      match l.find? (fun p => gateAccepts (probe p)) with
      | some p => ResolveOutcome.ok p (dotJoin (versionOf (probe p)))
      | none => ResolveOutcome.exitFail := by
  intro l
  induction l with
  | nil => intro _; rfl
  | cons p ps ih =>
    intro h
    rw [List.all_cons, Bool.and_eq_true] at h
    cases hv : get_bazel_version (probe p) with
    | error e =>
      have hp := h.1
      rw [noValueError, hv] at hp
      exact absurd hp (by simp)
    | ok vo =>
      cases vo with
      | none =>
        have hg : gateAccepts (probe p) = false := by
          rw [gateAccepts, hv]
        rw [List.find?_cons_of_neg _ (by simp [hg])]
        have e1 : get_bazel_path_go probe (p :: ps) =
            get_bazel_path_go probe ps := by
          simp [get_bazel_path_go, hv]
        rw [e1]
        exact ih h.2
      | some vs =>
        have hgv : gateAccepts (probe p) = pyGe vs [5, 1, 1] := by
          rw [gateAccepts, hv]
        cases hge : pyGe vs [5, 1, 1] with
        | true =>
          rw [List.find?_cons_of_pos _ (by simp [hgv, hge])]
          have e2 : get_bazel_path_go probe (p :: ps) =
              ResolveOutcome.ok p (dotJoin vs) := by
            simp [get_bazel_path_go, hv, hge]
          have ev : versionOf (probe p) = vs := by simp [versionOf, hv]
          rw [e2]
          simp [ev]
        | false =>
          rw [List.find?_cons_of_neg _ (by simp [hgv, hge])]
          have e3 : get_bazel_path_go probe (p :: ps) =
              get_bazel_path_go probe ps := by
            simp [get_bazel_path_go, hv, hge]
          rw [e3]
          exact ih h.2

/-- Filtering one section's chunks by tag keeps all of them or none. -/
theorem filter_mkSec (t t' : Tag) (ss : List String) :
    (mkSec t ss).filter (fun c => decide (c.1 = t')) =
      if t = t' then mkSec t ss else [] := by
  induction ss with
  | nil => simp [mkSec]
  | cons s ss ih =>
    by_cases h : t = t'
    · rw [if_pos h] at ih ⊢
      simp only [mkSec, List.map_cons, List.filter_cons] at ih ⊢
      simp [h, ih]
    · rw [if_neg h] at ih ⊢
      simp only [mkSec, List.map_cons, List.filter_cons] at ih ⊢
      simp [h, ih]

/-- Only the target-CPU-feature branch writes archFeature chunks. -/
theorem archChunks_eq (iswin : Bool) (a : WBArgs) :
    archChunks iswin a = mkSec Tag.archFeature (archSec iswin a) := by
  simp only [archChunks, write_bazelrc_chunks, sections, sectionsFlatten,
    List.filter_append, filter_mkSec]
  simp

/-- A constant list is weakly increasing. -/
theorem pairwise_const_le (n : Nat) (ss : List String) :
    (ss.map (fun _ => n)).Pairwise (fun m k => m ≤ k) := by
  induction ss with
  | nil => simp
  | cons s ss ih =>
    refine List.Pairwise.cons ?_ ih
    intro y hy
    simp only [List.mem_map] at hy
    obtain ⟨x, _, hx⟩ := hy
    exact Nat.le_of_eq hx

/-- Every chunk of the flattened sections carries the tag of one of the
sections. -/
theorem mem_flatten_tags : ∀ (secs : List (Tag × List String)) (n : Nat),
    n ∈ (sectionsFlatten secs).map (fun c => tagIdx c.1) →
    n ∈ secs.map (fun s => tagIdx s.1) := by
  intro secs
  induction secs with
  | nil => intro n h; simp [sectionsFlatten] at h
  | cons s rest ih =>
    obtain ⟨t, ss⟩ := s
    intro n h
    simp only [sectionsFlatten, List.map_append, List.mem_append] at h
    simp only [List.map_cons, List.mem_cons]
    rcases h with h | h
    · left
      simp only [mkSec, List.map_map, List.mem_map] at h
      obtain ⟨x, _, hx⟩ := h
      exact hx.symm
    · right
      exact ih n h

/-- Flattening sections whose tags are weakly increasing yields chunks
whose tags are weakly increasing. -/
theorem pairwise_flatten_tags :
    ∀ secs : List (Tag × List String),
    (secs.map (fun s => tagIdx s.1)).Pairwise (fun m n => m ≤ n) →
    ((sectionsFlatten secs).map (fun c => tagIdx c.1)).Pairwise
      (fun m n => m ≤ n) := by
  intro secs
  induction secs with
  | nil => intro _; simp [sectionsFlatten]
  | cons s rest ih =>
    obtain ⟨t, ss⟩ := s
    intro h
    simp only [List.map_cons] at h
    rw [List.pairwise_cons] at h
    simp only [sectionsFlatten, List.map_append]
    rw [List.pairwise_append]
    refine ⟨?_, ih h.2, ?_⟩
    · have e : (mkSec t ss).map (fun c => tagIdx c.1) =
          ss.map (fun _ => tagIdx t) := by
        simp only [mkSec, List.map_map]
        rfl
      rw [e]
      exact pairwise_const_le (tagIdx t) ss
    · intro x hx y hy
      have hx' : x = tagIdx t := by
        simp only [mkSec, List.map_map, List.mem_map] at hx
        obtain ⟨z, _, hz⟩ := hx
        exact hz.symm
      subst hx'
      exact h.1 y (mem_flatten_tags rest y hy)

/-! ### Claim theorems -/

/-- Claim C1: when the (platform, machine) lookup succeeds and no executable
file with the canonical name pre-exists, a fetched byte stream whose hash
does not equal the table's expected digest is never written under the
canonical binary name, the process exits with the non-zero status -1, and
exactly one download was attempted (no retry); conversely, bytes are
persisted (and marked executable) only when their digest matches the
expected one exactly. -/
theorem c1_checksum_gate :
    ∀ (hash : List Nat → String) (system machine : String)
      (pkg : BazelPackage) (fetched : List Nat),
    dict_get bazel_packages (system, machine) = some pkg →
    (hash fetched ≠ pkg.sha256 →
      (download_and_verify_bazel hash system machine false fetched).written = none ∧
      (download_and_verify_bazel hash system machine false fetched).made_executable = false ∧
      (download_and_verify_bazel hash system machine false fetched).exit = some (-1) ∧
      (-1 : Int) ≠ 0 ∧
      (download_and_verify_bazel hash system machine false fetched).downloads = 1) ∧
    (∀ (file_executable : Bool) (bytes : List Nat),
      (download_and_verify_bazel hash system machine file_executable fetched).written
          = some bytes →
      bytes = fetched ∧ hash bytes = pkg.sha256 ∧
      (download_and_verify_bazel hash system machine file_executable fetched).made_executable
          = true) := by
  intro hash sys mach pkg fetched hlook
  constructor
  · intro hne
    have e : download_and_verify_bazel hash sys mach false fetched =
        { downloads := 1, digest_computed := true, written := none,
          made_executable := false, exit := some (-1), ret := none } := by
      simp [download_and_verify_bazel, hlook, hne]
    rw [e]
    exact ⟨rfl, rfl, rfl, by decide, rfl⟩
  · intro fexec bytes hw
    cases fexec with
    | true =>
      have e : (download_and_verify_bazel hash sys mach true fetched).written = none := by
        simp [download_and_verify_bazel, hlook]
      rw [e] at hw
      exact Option.noConfusion hw
    | false =>
      by_cases hd : hash fetched = pkg.sha256
      · have e : download_and_verify_bazel hash sys mach false fetched =
            { downloads := 1, digest_computed := true, written := some fetched,
              made_executable := true, exit := none,
              ret := some (some ("./" ++ pkg.file)) } := by
          simp [download_and_verify_bazel, hlook, hd]
        rw [e] at hw ⊢
        have hb : bytes = fetched := by
          cases hw
          rfl
        subst hb
        exact ⟨rfl, hd, rfl⟩
      · have e : (download_and_verify_bazel hash sys mach false fetched).written = none := by
          simp [download_and_verify_bazel, hlook, hd]
        rw [e] at hw
        exact Option.noConfusion hw

/-- Witness for C1: a mismatching digest on the Linux x86-64 entry is not
persisted, exits -1, after a single download attempt. -/
theorem c1_checksum_gate_witness :
    (download_and_verify_bazel (fun _ => "deadbeef") "Linux" "x86_64" false [7]).written
        = none ∧
    (download_and_verify_bazel (fun _ => "deadbeef") "Linux" "x86_64" false [7]).exit
        = some (-1) ∧
    (download_and_verify_bazel (fun _ => "deadbeef") "Linux" "x86_64" false [7]).downloads
        = 1 := by
  have h := (c1_checksum_gate (fun _ => "deadbeef") "Linux" "x86_64"
      { base_uri := none, file := "bazel-6.1.2-linux-x86_64",
        sha256 := "e89747d63443e225b140d7d37ded952dacea73aaed896bca01ccd745827c6289" }
      [7] (by decide)).1 (by decide)
  exact ⟨h.1, h.2.2.1, h.2.2.2.2⟩

/-- Claim C2: whenever the version regex extracts a capture whose dot-split
components all parse as integers, the version gate accepts exactly when the
parsed tuple is lexicographically at least (5, 1, 1); in particular 4.9.9
is rejected while 5.1.1 and 5.2.0 are accepted. -/
theorem c2_version_gate :
    (∀ (s : String) (cap : List Char) (vs : List Nat),
        regexSearch s.data = some cap →
        allInts (splitOnChar '.' cap) = some vs →
        (gateAccepts (ProbeResult.output s) = true ↔
          ¬ List.Lex (fun a b => a < b) vs [5, 1, 1])) ∧
    gateAccepts (ProbeResult.output "bazel 4.9.9") = false ∧
    gateAccepts (ProbeResult.output "bazel 5.1.1") = true ∧
    gateAccepts (ProbeResult.output "bazel 5.2.0") = true := by
  refine ⟨?_, by decide, by decide, by decide⟩
  intro s cap vs h1 h2
  have e : gateAccepts (ProbeResult.output s) = pyGe vs [5, 1, 1] := by
    simp [gateAccepts, get_bazel_version, h1, h2]
  rw [e, pyGe]
  constructor
  · intro hb hlex
    rw [(pyLt_iff_lex vs [5, 1, 1]).mpr hlex] at hb
    exact Bool.noConfusion hb
  · intro hn
    cases hpl : pyLt vs [5, 1, 1] with
    | true => exact absurd ((pyLt_iff_lex _ _).mp hpl) hn
    | false => rfl

/-- Witness for C2: probe output reporting 6.1.2 passes the gate. -/
theorem c2_version_gate_witness :
    gateAccepts (ProbeResult.output "bazel 6.1.2") = true := by
  have h := c2_version_gate.1 "bazel 6.1.2" ['6', '.', '1', '.', '2'] [6, 1, 2]
    (by decide) (by decide)
  exact h.mpr (by decide)

/-- Counterexample for C3: probe output in which the regex matches but a
captured component is not a valid integer (here "bazel ....", captured
group "....") makes the resolver raise an uncaught ValueError (crash)
instead of skipping the candidate and exiting with the diagnostic. -/
theorem c3_counterexample :
    get_bazel_path (some "mybazel") none none
        (fun _ => ProbeResult.output "bazel ....") = ResolveOutcome.crash ∧
    ResolveOutcome.crash ≠ ResolveOutcome.exitFail := by decide

/-- Claim C3 (amended): provided no candidate's version output makes int()
raise, get_bazel_path tries the candidates in order (--bazel_path flag,
PATH lookup, fresh download), returns the first whose probe parses and
passes the minimum-version gate — candidates whose probe raises or whose
output has no regex match are skipped — and exits non-zero when no
candidate qualifies. -/
theorem c3_resolver_order :
    ∀ (flag whichBazel downloaded : Option String)
      (probe : String → ProbeResult),
    ((get_bazel_paths flag whichBazel downloaded).filterMap id).all
        (fun p => noValueError (probe p)) = true →
    get_bazel_path flag whichBazel downloaded probe =
      match ((get_bazel_paths flag whichBazel downloaded).filterMap id).find?
          (fun p => gateAccepts (probe p)) with
      | some p => ResolveOutcome.ok p (dotJoin (versionOf (probe p)))
      | none => ResolveOutcome.exitFail := by
  intro flag whichBazel downloaded probe h
  exact resolver_find probe _ h

/-- Witness for C3: the flag path reports 4.9.9 and is skipped; the PATH
bazel reports 6.1.2 and is returned with its version string. -/
theorem c3_resolver_order_witness :
    get_bazel_path (some "oldbazel") (some "pathbazel") none probeTwo =
      ResolveOutcome.ok "pathbazel" "6.1.2" := by
  have h := c3_resolver_order (some "oldbazel") (some "pathbazel") none probeTwo
    (by decide)
  exact h.trans (by decide)

/-- Claim C4: with both accelerator toggles enabled, the run terminates
with exit status 2 (non-zero) and the config-emission phase never runs, so
no configuration file is created or modified. -/
theorem c4_conflicting_flags :
    ∀ (args : MainArgs) (env : MainEnv),
    args.enable_cuda = true → args.enable_rocm = true →
    (main_trace args env).2 = some 2 ∧ (2 : Int) ≠ 0 ∧
    Event.configEmit ∉ (main_trace args env).1 := by
  intro args env h1 h2
  have e : main_trace args env = ([], some 2) := by
    simp [main_trace, h1, h2]
  rw [e]
  exact ⟨rfl, by decide, by simp⟩

/-- Witness for C4 at a concrete argument vector with both toggles set. -/
theorem c4_conflicting_flags_witness :
    (main_trace conflictArgs okEnv).2 = some 2 ∧ (2 : Int) ≠ 0 ∧
    Event.configEmit ∉ (main_trace conflictArgs okEnv).1 :=
  c4_conflicting_flags conflictArgs okEnv rfl rfl

/-- Counterexample for C5: with use_clang set, write_bazelrc appends to the
caller's bazel_options list, so the arguments do not come back unchanged
and a second call with the mutated list produces different bytes. -/
theorem c5_counterexample :
    bazel_options_after clangMutArgs ≠ clangMutArgs.bazel_options ∧
    write_bazelrc_content false
        { clangMutArgs with bazel_options := bazel_options_after clangMutArgs }
      ≠ write_bazelrc_content false clangMutArgs := by decide

/-- Claim C5 (amended): when use_clang is false, write_bazelrc leaves
bazel_options unchanged and a repeated call emits byte-identical content;
the mutation (and resulting non-idempotence) occurs exactly through the
clang-driven appends. -/
theorem c5_idempotent_without_clang :
    ∀ (iswin : Bool) (a : WBArgs), a.use_clang = false →
    bazel_options_after a = a.bazel_options ∧
    write_bazelrc_content iswin
        { a with bazel_options := bazel_options_after a } =
      write_bazelrc_content iswin a := by
  intro iswin a h
  have h1 : bazel_options_after a = a.bazel_options := by
    simp [bazel_options_after, clangExtraOpts, h]
  refine ⟨h1, ?_⟩
  rw [h1]

/-- Witness for C5 at a clang-free configuration. -/
theorem c5_idempotent_without_clang_witness :
    bazel_options_after plainArgs = plainArgs.bazel_options ∧
    write_bazelrc_content false
        { plainArgs with bazel_options := bazel_options_after plainArgs } =
      write_bazelrc_content false plainArgs :=
  c5_idempotent_without_clang false plainArgs rfl

/-- Counterexample for C6: with one user option and MKL-DNN enabled, the
options-loop chunk is emitted before the MKL-DNN feature directive, so the
user-supplied options are not last in the file. -/
theorem c6_counterexample :
    write_bazelrc_chunks false optsMidArgs =
      [(Tag.optLoop, "build --foo\n"),
       (Tag.mklDnn, "build --config=mkl_open_source_only\n")] ∧
    ¬ userOptsLast (write_bazelrc_chunks false optsMidArgs) := by
  refine ⟨by decide, by decide⟩

/-- Claim C6 (amended): the write sites of write_bazelrc always emit in the
fixed source order python config, compiler selection, accelerator
environment settings, CPU flag, options loop (user-supplied plus
clang-appended options), architecture features, MKL-DNN, CUDA configs,
ROCm configs, plugin config — so the user options precede the feature and
accelerator config toggles rather than coming last. -/
theorem c6_emission_order : ∀ (iswin : Bool) (a : WBArgs),
    ((write_bazelrc_chunks iswin a).map (fun c => tagIdx c.1)).Pairwise
      (fun m n => m ≤ n) := by
  intro iswin a
  apply pairwise_flatten_tags
  have e : (sections iswin a).map (fun s => tagIdx s.1) =
      [0, 1, 2, 3, 4, 5, 6, 7, 8, 9, 10, 11, 12] := rfl
  rw [e]
  decide

/-- Claim C7 (code bug): with CUDA, Mosaic GPU and the GPU plugin enabled,
the mosaic_gpu write has no trailing newline, so the generated file holds
the two directives "build --config=mosaic_gpu" and
"build --config=cuda_plugin" merged on one line, violating the
one-directive-per-line grammar the spec states. -/
theorem c7_merged_directive_line :
    write_bazelrc_content false mosaicPluginArgs =
      "build --action_env TF_CUDA_VERSION=\"12\"\nbuild --config=cuda\nbuild --config=mosaic_gpubuild --config=cuda_plugin\n" ∧
    "build --config=mosaic_gpubuild --config=cuda_plugin" ∈
      linesOf (write_bazelrc_content false mosaicPluginArgs) := by
  refine ⟨by decide, by decide⟩

/-- Claim C8: with target_cpu_features release and wheel CPU x86-64 the
emitter produces exactly one architecture-feature chunk (the AVX config
line for the host platform); with native on Windows it produces none and
prints the warning. -/
theorem c8_arch_features : ∀ (iswin : Bool) (a : WBArgs),
    (a.target_cpu_features = "release" → a.wheel_cpu = "x86_64" →
      archChunks iswin a =
        [(Tag.archFeature,
          if iswin then "build --config=avx_windows\n"
          else "build --config=avx_posix\n")]) ∧
    (a.target_cpu_features = "native" → iswin = true →
      archChunks iswin a = [] ∧
      write_bazelrc_warnings iswin a =
        ["--target_cpu_features=native is not supported on Windows; ignoring."]) := by
  intro iswin a
  constructor
  · intro h1 h2
    rw [archChunks_eq]
    simp [archSec, h1, h2, mkSec]
  · intro h1 h2
    subst h2
    rw [archChunks_eq]
    constructor
    · simp [archSec, h1, mkSec]
    · simp [write_bazelrc_warnings, h1]

/-- Witness for C8: release on x86-64 (posix host) yields the single AVX
directive; native on a Windows host yields no directive and the warning. -/
theorem c8_arch_features_witness :
    archChunks false releaseArgs =
      [(Tag.archFeature, "build --config=avx_posix\n")] ∧
    archChunks true nativeArgs = [] ∧
    write_bazelrc_warnings true nativeArgs =
      ["--target_cpu_features=native is not supported on Windows; ignoring."] := by
  have h1 := (c8_arch_features false releaseArgs).1 rfl rfl
  have h2 := (c8_arch_features true nativeArgs).2 rfl rfl
  exact ⟨by simpa using h1, h2.1, h2.2⟩

/-- Counterexample for C9: in an ordinary successful run the build-tool
resolver phase runs strictly before the environment probe, so the claimed
order (probe before resolver) is false. -/
theorem c9_counterexample :
    (main_trace okArgs okEnv).1 =
      [Event.toolResolve, Event.envProbe, Event.configEmit, Event.buildInvoke] ∧
    (main_trace okArgs okEnv).1.contains Event.toolResolve = true ∧
    (main_trace okArgs okEnv).1.contains Event.envProbe = true ∧
    ¬ ((main_trace okArgs okEnv).1.indexOf Event.envProbe
        < (main_trace okArgs okEnv).1.indexOf Event.toolResolve) := by
  refine ⟨by decide, by decide, by decide, by decide⟩

/-- Claim C9 (amended): the phases always run in the linear order
ToolResolver, then EnvironmentProbe, then ConfigEmitter, then the build
invocations, truncated at the first fatal error: every trace is a prefix
of that chain. -/
theorem c9_linear_order :
    ∀ (args : MainArgs) (env : MainEnv), ∃ rest,
    (main_trace args env).1 ++ rest =
      [Event.toolResolve, Event.envProbe, Event.configEmit, Event.buildInvoke] := by
  intro args env
  unfold main_trace
  split
  · exact ⟨_, rfl⟩
  · split
    · exact ⟨_, rfl⟩
    · split
      · exact ⟨_, rfl⟩
      · split
        · exact ⟨_, rfl⟩
        · exact ⟨_, rfl⟩

/-- Claim C10: when the lookup succeeds and an executable file with the
canonical binary name already exists, download_and_verify_bazel performs
no download, computes no digest, writes nothing, and returns that file's
path unchanged. -/
theorem c10_existing_binary_trusted :
    ∀ (hash : List Nat → String) (system machine : String)
      (pkg : BazelPackage) (fetched : List Nat),
    dict_get bazel_packages (system, machine) = some pkg →
    (download_and_verify_bazel hash system machine true fetched).downloads = 0 ∧
    (download_and_verify_bazel hash system machine true fetched).digest_computed = false ∧
    (download_and_verify_bazel hash system machine true fetched).written = none ∧
    (download_and_verify_bazel hash system machine true fetched).exit = none ∧
    (download_and_verify_bazel hash system machine true fetched).ret
      = some (some ("./" ++ pkg.file)) := by
  intro hash sys mach pkg fetched hlook
  have e : download_and_verify_bazel hash sys mach true fetched =
      { downloads := 0, digest_computed := false, written := none,
        made_executable := false, exit := none,
        ret := some (some ("./" ++ pkg.file)) } := by
    simp [download_and_verify_bazel, hlook]
  rw [e]
  exact ⟨rfl, rfl, rfl, rfl, rfl⟩

/-- Witness for C10 on the Darwin arm64 table entry. -/
theorem c10_existing_binary_trusted_witness :
    (download_and_verify_bazel (fun _ => "") "Darwin" "arm64" true [7]).downloads = 0 ∧
    (download_and_verify_bazel (fun _ => "") "Darwin" "arm64" true [7]).digest_computed
        = false ∧
    (download_and_verify_bazel (fun _ => "") "Darwin" "arm64" true [7]).ret
        = some (some "./bazel-6.1.2-darwin-arm64") := by
  have h := c10_existing_binary_trusted (fun _ => "") "Darwin" "arm64"
      { base_uri := none, file := "bazel-6.1.2-darwin-arm64",
        sha256 := "30cdf85af055ca8fdab7de592b1bd64f940955e3f63ed5c503c4e93d0112bd9d" }
      [7] (by decide)
  exact ⟨h.1, h.2.1, h.2.2.2.2⟩
